import Mathlib

/-!
Shallow embedding of the wa-sqlite relay layer (src/libvfs.c, src/libhook.c,
src/libfunction.c): the VFS virtual-method vocabulary, the registration-time
descriptor builder `libvfs_vfs_register`, the per-handle method-table
constructor `libvfs_xOpen`, the sync/async relay dispatcher `VFS_JS`, and the
64-bit rowid marshalling of the update-hook relays.
-/

set_option maxRecDepth 4000

/-- The virtual-method vocabulary, in the exact order of the anonymous enum of
libvfs.c lines 11-38 (instance-level methods first, then per-handle methods). -/
inductive VfsMethod
  | xOpen
  | xDelete
  | xAccess
  | xFullPathname
  | xRandomness
  | xSleep
  | xCurrentTime
  | xGetLastError
  | xCurrentTimeInt64
  | xClose
  | xRead
  | xWrite
  | xTruncate
  | xSync
  | xFileSize
  | xLock
  | xUnlock
  | xCheckReservedLock
  | xFileControl
  | xSectorSize
  | xDeviceCharacteristics
  | xShmMap
  | xShmLock
  | xShmBarrier
  | xShmUnmap
deriving DecidableEq, Repr

/-- The numeric value each enumerator receives in the C enum: this is the bit
position used by every `1 << METHOD` test in libvfs.c (both in the `VFS_JS`
dispatcher for `asyncMask` and in the `METHOD` table-building macros for
`methodMask`). -/
def methodBit : VfsMethod → Nat
  | .xOpen => 0
  | .xDelete => 1
  | .xAccess => 2
  | .xFullPathname => 3
  | .xRandomness => 4
  | .xSleep => 5
  | .xCurrentTime => 6
  | .xGetLastError => 7
  | .xCurrentTimeInt64 => 8
  | .xClose => 9
  | .xRead => 10
  | .xWrite => 11
  | .xTruncate => 12
  | .xSync => 13
  | .xFileSize => 14
  | .xLock => 15
  | .xUnlock => 16
  | .xCheckReservedLock => 17
  | .xFileControl => 18
  | .xSectorSize => 19
  | .xDeviceCharacteristics => 20
  | .xShmMap => 21
  | .xShmLock => 22
  | .xShmBarrier => 23
  | .xShmUnmap => 24

/-- The `#METHOD` stringification performed by the `VFS_JS` macro: the stable
symbolic name token handed to the host side. -/
def methodNameToken : VfsMethod → String
  | .xOpen => "xOpen"
  | .xDelete => "xDelete"
  | .xAccess => "xAccess"
  | .xFullPathname => "xFullPathname"
  | .xRandomness => "xRandomness"
  | .xSleep => "xSleep"
  | .xCurrentTime => "xCurrentTime"
  | .xGetLastError => "xGetLastError"
  | .xCurrentTimeInt64 => "xCurrentTimeInt64"
  | .xClose => "xClose"
  | .xRead => "xRead"
  | .xWrite => "xWrite"
  | .xTruncate => "xTruncate"
  | .xSync => "xSync"
  | .xFileSize => "xFileSize"
  | .xLock => "xLock"
  | .xUnlock => "xUnlock"
  | .xCheckReservedLock => "xCheckReservedLock"
  | .xFileControl => "xFileControl"
  | .xSectorSize => "xSectorSize"
  | .xDeviceCharacteristics => "xDeviceCharacteristics"
  | .xShmMap => "xShmMap"
  | .xShmLock => "xShmLock"
  | .xShmBarrier => "xShmBarrier"
  | .xShmUnmap => "xShmUnmap"

/-- Position of a method in an ordered enumeration (0-based index of first
occurrence). -/
def orderIndex : List VfsMethod → VfsMethod → Nat
  | [], _ => 0
  | x :: xs, m => if x = m then 0 else orderIndex xs m + 1

/-- The enumeration order actually declared by the C enum (libvfs.c 11-38). -/
def codeMethodOrder : List VfsMethod :=
  [.xOpen, .xDelete, .xAccess, .xFullPathname, .xRandomness, .xSleep,
   .xCurrentTime, .xGetLastError, .xCurrentTimeInt64,
   .xClose, .xRead, .xWrite, .xTruncate, .xSync, .xFileSize, .xLock,
   .xUnlock, .xCheckReservedLock, .xFileControl, .xSectorSize,
   .xDeviceCharacteristics, .xShmMap, .xShmLock, .xShmBarrier, .xShmUnmap]

/-- The enumeration order as the spec states it (spec section 6: "open,
delete, access, full-pathname, randomness, sleep, current-time,
current-time-64, get-last-error, close, ..."), written down verbatim for
comparison against the code's order. -/
def specMethodOrder : List VfsMethod :=
  [.xOpen, .xDelete, .xAccess, .xFullPathname, .xRandomness, .xSleep,
   .xCurrentTime, .xCurrentTimeInt64, .xGetLastError,
   .xClose, .xRead, .xWrite, .xTruncate, .xSync, .xFileSize, .xLock,
   .xUnlock, .xCheckReservedLock, .xFileControl, .xSectorSize,
   .xDeviceCharacteristics, .xShmMap, .xShmLock, .xShmBarrier, .xShmUnmap]


/-- A native function-pointer value. `adapter m` is the address of the
`libvfs_xNAME` relay adapter defined in libvfs.c for method `m`; `native id`
is any other function address (e.g. an entry of the built-in default VFS). -/
inductive FnVal
  | adapter (m : VfsMethod)
  | native (id : Nat)
deriving DecidableEq, Repr

/-- A nullable function pointer: `none` is NULL. -/
abbrev FnPtr := Option FnVal

/-- The engine's `sqlite3_vfs` record: the fields libvfs_vfs_register writes,
with one slot per instance-level virtual method. -/
structure Sqlite3Vfs where
  iVersion : Int
  szOsFile : Int
  mxPathname : Int
  zName : String
  xOpen : FnPtr
  xDelete : FnPtr
  xAccess : FnPtr
  xFullPathname : FnPtr
  xRandomness : FnPtr
  xSleep : FnPtr
  xCurrentTime : FnPtr
  xGetLastError : FnPtr
  xCurrentTimeInt64 : FnPtr
deriving DecidableEq, Repr

/-- The instance-level (registration-time) virtual-method slots, i.e. the nine
slots resolved by libvfs_vfs_register. -/
def instanceMethods : List VfsMethod :=
  [.xOpen, .xDelete, .xAccess, .xFullPathname, .xRandomness, .xSleep,
   .xCurrentTime, .xGetLastError, .xCurrentTimeInt64]

/-- The per-handle virtual-method slots, i.e. the sixteen slots resolved by
libvfs_xOpen when it builds the `sqlite3_io_methods` table. -/
def fileMethods : List VfsMethod :=
  [.xClose, .xRead, .xWrite, .xTruncate, .xSync, .xFileSize, .xLock,
   .xUnlock, .xCheckReservedLock, .xFileControl, .xSectorSize,
   .xDeviceCharacteristics, .xShmMap, .xShmLock, .xShmBarrier, .xShmUnmap]

/-- Field access of a `sqlite3_vfs` record by method; per-handle methods have
no slot in this record and read as NULL (they are never consulted there). -/
def Sqlite3Vfs.slot (v : Sqlite3Vfs) : VfsMethod → FnPtr
  | .xOpen => v.xOpen
  | .xDelete => v.xDelete
  | .xAccess => v.xAccess
  | .xFullPathname => v.xFullPathname
  | .xRandomness => v.xRandomness
  | .xSleep => v.xSleep
  | .xCurrentTime => v.xCurrentTime
  | .xGetLastError => v.xGetLastError
  | .xCurrentTimeInt64 => v.xCurrentTimeInt64
  | _ => none

/-- The extended VFS record of libvfs.c (struct VFS): the engine-visible base
plus the two masks captured at registration. -/
structure VFS where
  base : Sqlite3Vfs
  methodMask : Nat
  asyncMask : Nat
deriving DecidableEq, Repr

/-- The `sqlite3_io_methods` table built by libvfs_xOpen. -/
structure SqliteIoMethods where
  iVersion : Int
  xClose : FnPtr
  xRead : FnPtr
  xWrite : FnPtr
  xTruncate : FnPtr
  xSync : FnPtr
  xFileSize : FnPtr
  xLock : FnPtr
  xUnlock : FnPtr
  xCheckReservedLock : FnPtr
  xFileControl : FnPtr
  xSectorSize : FnPtr
  xDeviceCharacteristics : FnPtr
  xShmMap : FnPtr
  xShmLock : FnPtr
  xShmBarrier : FnPtr
  xShmUnmap : FnPtr
deriving DecidableEq, Repr

/-- Field access of a `sqlite3_io_methods` table by method; instance-level
methods have no slot here and read as NULL. -/
def SqliteIoMethods.slot (t : SqliteIoMethods) : VfsMethod → FnPtr
  | .xClose => t.xClose
  | .xRead => t.xRead
  | .xWrite => t.xWrite
  | .xTruncate => t.xTruncate
  | .xSync => t.xSync
  | .xFileSize => t.xFileSize
  | .xLock => t.xLock
  | .xUnlock => t.xUnlock
  | .xCheckReservedLock => t.xCheckReservedLock
  | .xFileControl => t.xFileControl
  | .xSectorSize => t.xSectorSize
  | .xDeviceCharacteristics => t.xDeviceCharacteristics
  | .xShmMap => t.xShmMap
  | .xShmLock => t.xShmLock
  | .xShmBarrier => t.xShmBarrier
  | .xShmUnmap => t.xShmUnmap
  | _ => none

/-- The extended file record of libvfs.c (struct VFSFile): the engine's
`sqlite3_file` base (its pMethods pointer) plus the back-reference to the
owning VFS; `none` models a NULL pointer. -/
structure VFSFile where
  pMethods : Option SqliteIoMethods
  pVfs : Option VFS
deriving DecidableEq, Repr

/-- Process-wide state the registration path touches: the current default VFS
as reported by `sqlite3_vfs_find(NULL)`. -/
structure ProcState where
  defaultVfs : Sqlite3Vfs
deriving DecidableEq, Repr

def SQLITE_OK : Int := 0
def SQLITE_NOMEM : Int := 7

/-- The engine's `sqlite3_vfs_find(NULL)`: returns the current default VFS
(external engine call, modelled at its interface). -/
def sqlite3_vfs_find (st : ProcState) : Sqlite3Vfs := st.defaultVfs

/-- The engine's `sqlite3_vfs_register`: links the VFS in and, when
makeDefault is set, makes it the process default; returns SQLITE_OK
(external engine call, modelled at its interface). -/
def sqlite3_vfs_register (st : ProcState) (v : Sqlite3Vfs) (makeDefault : Bool) :
    Int × ProcState :=
  (SQLITE_OK, if makeDefault then { defaultVfs := v } else st)

/-- One registration-time slot: the `METHOD` macro of libvfs_vfs_register
(libvfs.c 205-206): the relay adapter when the method's bit is set in
methodMask, otherwise the backup (current default) VFS's own entry. -/
def regSlotEntry (methodMask : Nat) (backupVfs : Sqlite3Vfs) (m : VfsMethod) : FnPtr :=
  if methodMask.testBit (methodBit m) then some (.adapter m) else backupVfs.slot m

/-- libvfs_vfs_register (libvfs.c 183-224). `allocOk` is the outcome of the
`sqlite3_malloc(sizeof(VFS))` call. Returns the C return value, the value
stored through `*ppVfs` (none when the function bails before storing), and
the process state after `sqlite3_vfs_register`. -/
def libvfs_vfs_register (st : ProcState) (zName : String) (mxPathName : Int)
    (methodMask asyncMask : Nat) (makeDefault : Bool) (allocOk : Bool) :
    Int × Option VFS × ProcState :=
  let backupVfs := sqlite3_vfs_find st
  if allocOk then
    let vfs : VFS :=
      { base :=
          { iVersion := 2
            szOsFile := 2    -- sizeof(VFSFile): the two pointer fields
            mxPathname := mxPathName
            zName := zName
            xOpen := regSlotEntry methodMask backupVfs .xOpen
            xDelete := regSlotEntry methodMask backupVfs .xDelete
            xAccess := regSlotEntry methodMask backupVfs .xAccess
            xFullPathname := regSlotEntry methodMask backupVfs .xFullPathname
            xRandomness := regSlotEntry methodMask backupVfs .xRandomness
            xSleep := regSlotEntry methodMask backupVfs .xSleep
            xCurrentTime := regSlotEntry methodMask backupVfs .xCurrentTime
            xGetLastError := regSlotEntry methodMask backupVfs .xGetLastError
            xCurrentTimeInt64 := regSlotEntry methodMask backupVfs .xCurrentTimeInt64 }
        methodMask := methodMask
        asyncMask := asyncMask }
    let rc := sqlite3_vfs_register st vfs.base makeDefault
    (rc.1, some vfs, rc.2)
  else
    (SQLITE_NOMEM, none, st)

/-- One marshalled natural argument of a relayed call, as the adapters pass
them: pointers (the file or VFS record itself, or other native addresses),
32-bit integers, and 64-bit integers. -/
inductive Arg
  | ptrFile
  | ptrVfs
  | ptr (a : Nat)
  | i32 (n : Int)
  | i64 (n : Int)
deriving DecidableEq, Repr

/-- The call the `VFS_JS` macro hands to the host boundary: either the
signature's synchronous entry point or its `_async` entry point, each carrying
the key (the owning VFS instance), the `#METHOD` name token, and the method's
natural arguments. -/
inductive HostCall
  | syncForm (key : VFS) (nameToken : String) (args : List Arg)
  | asyncForm (key : VFS) (nameToken : String) (args : List Arg)
deriving DecidableEq, Repr

def HostCall.key : HostCall → VFS
  | .syncForm k _ _ => k
  | .asyncForm k _ _ => k

def HostCall.nameToken : HostCall → String
  | .syncForm _ n _ => n
  | .asyncForm _ n _ => n

def HostCall.args : HostCall → List Arg
  | .syncForm _ _ a => a
  | .asyncForm _ _ a => a

def HostCall.isAsyncForm : HostCall → Bool
  | .syncForm _ _ _ => false
  | .asyncForm _ _ _ => true

/-- The `VFS_JS` macro (libvfs.c 52-55): tests `asyncMask & (1 << METHOD)` on
the key VFS and selects the `_async` call form when set, the synchronous form
otherwise; both forms receive the key, the stringified method name and the
same argument list. -/
def VFS_JS (key : VFS) (m : VfsMethod) (args : List Arg) : HostCall :=
  if key.asyncMask.testBit (methodBit m) then
    .asyncForm key (methodNameToken m) args
  else
    .syncForm key (methodNameToken m) args

/-- The state an xOpen call touches: the owning VFS record and the engine-
allocated file record passed as pFile. -/
structure OpenState where
  vfs : VFS
  file : VFSFile
deriving DecidableEq, Repr

/-- One per-handle slot: the `METHOD` macro of libvfs_xOpen (libvfs.c 128):
the relay adapter when the method's bit is set in methodMask, otherwise NULL. -/
def ioSlotEntry (methodMask : Nat) (m : VfsMethod) : FnPtr :=
  if methodMask.testBit (methodBit m) then some (.adapter m) else none

/-- The `sqlite3_io_methods` table libvfs_xOpen populates (libvfs.c 127-145):
version 2, and every per-handle slot filled by `ioSlotEntry`. -/
def buildIoMethods (methodMask : Nat) : SqliteIoMethods :=
  { iVersion := 2
    xClose := ioSlotEntry methodMask .xClose
    xRead := ioSlotEntry methodMask .xRead
    xWrite := ioSlotEntry methodMask .xWrite
    xTruncate := ioSlotEntry methodMask .xTruncate
    xSync := ioSlotEntry methodMask .xSync
    xFileSize := ioSlotEntry methodMask .xFileSize
    xLock := ioSlotEntry methodMask .xLock
    xUnlock := ioSlotEntry methodMask .xUnlock
    xCheckReservedLock := ioSlotEntry methodMask .xCheckReservedLock
    xFileControl := ioSlotEntry methodMask .xFileControl
    xSectorSize := ioSlotEntry methodMask .xSectorSize
    xDeviceCharacteristics := ioSlotEntry methodMask .xDeviceCharacteristics
    xShmMap := ioSlotEntry methodMask .xShmMap
    xShmLock := ioSlotEntry methodMask .xShmLock
    xShmBarrier := ioSlotEntry methodMask .xShmBarrier
    xShmUnmap := ioSlotEntry methodMask .xShmUnmap }

/-- libvfs_xOpen (libvfs.c 122-149). `host` is the host boundary: the integer
result the selected call form produces. `openArgs` is the marshalled argument
vector (pVfs, zName, pFile, flags, pOutFlags). `allocOk` is the outcome of
`sqlite3_malloc(sizeof(sqlite3_io_methods))`. The C code performs the relay
call first, then unconditionally writes through the malloc result: when the
allocation fails it dereferences a NULL pointer, modelled as `none` (the call
never returns). On success it installs the table and the back-reference on
pFile and returns the relay result. -/
def libvfs_xOpen (host : HostCall → Int) (openArgs : List Arg)
    (s : OpenState) (allocOk : Bool) : Option (Int × OpenState) :=
  let result := host (VFS_JS s.vfs .xOpen openArgs)
  if allocOk then
    some (result,
      { s with file := { pMethods := some (buildIoMethods s.vfs.methodMask)
                         pVfs := some s.vfs } })
  else
    none

/-- The common shape of every per-handle relay adapter (libvfs_xClose through
libvfs_xShmUnmap, libvfs.c 57-119): a single return of the `VFS_JS` relay
result, keyed by the file's back-reference `((VFSFile*)pFile)->pVfs`, with no
store to any record. -/
def relayFileMethod (host : HostCall → Int) (pVfs : VFS) (m : VfsMethod)
    (args : List Arg) : Int :=
  host (VFS_JS pVfs m args)

/-- Truncation of an integer to a signed 32-bit value (C cast to int on a
two's-complement target). -/
def wrap32 (n : Int) : Int := (n + 2 ^ 31) % 2 ^ 32 - 2 ^ 31

/-- Interpretation of a 64-bit pattern as a signed value (two's complement). -/
def wrap64 (n : Int) : Int := (n + 2 ^ 63) % 2 ^ 64 - 2 ^ 63

/-- The high half computed by libhook_xUpdateHook / xUpdateHook (libhook.c 24,
libfunction.c 23): `(int)((rowid & 0xFFFFFFFF00000000LL) >> 32)` — mask off
the low 32 bits of the 64-bit pattern, arithmetic-shift the signed value right
by 32 (exact floor division, the low bits being zero), truncate to int. -/
def splitHi32 (rowid : Int) : Int :=
  wrap32 (Int.fdiv (wrap64 (rowid % 2 ^ 64 - rowid % 2 ^ 64 % 2 ^ 32)) (2 ^ 32))

/-- The low half computed by libhook_xUpdateHook / xUpdateHook (libhook.c 25,
libfunction.c 24): `(int)(rowid & 0xFFFFFFFFLL)` — the low 32 bits of the
64-bit pattern, truncated to int. -/
def splitLo32 (rowid : Int) : Int :=
  wrap32 (rowid % 2 ^ 64 % 2 ^ 32)

/-- Modelled from the spec: the recomposition of the (high, low) halves on the
receiving (host JavaScript) side of the update-hook relay is not part of src/
(only its native callers libhook_xUpdateHook and xUpdateHook are). Per the
spec the receiving side recomposes the two 32-bit halves into the original
64-bit value: the high half shifted up 32 bits plus the low half taken as an
unsigned 32-bit quantity. -/
def hostRecompose64 (hi32 lo32 : Int) : Int := hi32 * 2 ^ 32 + lo32 % 2 ^ 32

/-- A concrete built-in default VFS (stands for the process default, e.g. the
emscripten unix VFS), with distinct native entries per slot. -/
def sampleDefaultVfs : Sqlite3Vfs :=
  { iVersion := 3
    szOsFile := 1
    mxPathname := 1024
    zName := "unix"
    xOpen := some (.native 100)
    xDelete := some (.native 101)
    xAccess := some (.native 102)
    xFullPathname := some (.native 103)
    xRandomness := some (.native 104)
    xSleep := some (.native 105)
    xCurrentTime := some (.native 106)
    xGetLastError := some (.native 107)
    xCurrentTimeInt64 := some (.native 108) }

/-- A concrete process state whose default VFS is `sampleDefaultVfs`. -/
def sampleProcState : ProcState := { defaultVfs := sampleDefaultVfs }

/-- A concrete registered instance implementing xRead and xWrite only
(bits 10 and 11), all synchronous. -/
def sampleVfs : VFS :=
  { base := sampleDefaultVfs, methodMask := 3072, asyncMask := 0 }

/-- A concrete open-call state: the engine hands libvfs_xOpen a zeroed file
record. -/
def sampleOpenState : OpenState :=
  { vfs := sampleVfs, file := { pMethods := none, pVfs := none } }

/-- A concrete host boundary that fails every relayed call with result code 10
(the engine's I/O-error code). -/
def sampleHostErr : HostCall → Int := fun _ => 10

/-- C1 (counterexample): in the spec's stated enumeration order, current-time-64
precedes get-last-error, so get-last-error sits at index 8 and current-time-64
at index 7 — but the C enum gives xGetLastError the value 7 and
xCurrentTimeInt64 the value 8, so the bit position used by the masks is not
the index in the spec's enumeration. -/
theorem spec_enum_order_counterexample :
    orderIndex specMethodOrder .xGetLastError = 8
    ∧ methodBit .xGetLastError = 7
    ∧ ¬(orderIndex specMethodOrder .xGetLastError = methodBit .xGetLastError) := by
  decide

/-- C1 (amended): the virtual-method vocabulary is the fixed ordered
enumeration (open, delete, access, full-pathname, randomness, sleep,
current-time, get-last-error, current-time-64, close, read, write, truncate,
sync, file-size, lock, unlock, check-reserved-lock, file-control, sector-size,
device-characteristics, shm-map, shm-lock, shm-barrier, shm-unmap) — with
get-last-error BEFORE current-time-64 — and for every method, the bit position
tested in the methods-implemented mask (by both table builders) and in the
methods-asynchronous mask (by the dispatcher) is that method's index in this
enumeration. -/
theorem method_bit_is_code_enum_index :
    ∀ (m : VfsMethod) (mask : Nat) (backup : Sqlite3Vfs) (key : VFS) (args : List Arg),
      orderIndex codeMethodOrder m = methodBit m
      ∧ regSlotEntry mask backup m =
          (if mask.testBit (orderIndex codeMethodOrder m) then some (.adapter m)
           else backup.slot m)
      ∧ ioSlotEntry mask m =
          (if mask.testBit (orderIndex codeMethodOrder m) then some (.adapter m) else none)
      ∧ (VFS_JS key m args).isAsyncForm = key.asyncMask.testBit (orderIndex codeMethodOrder m) := by
  intro m mask backup key args
  have h : orderIndex codeMethodOrder m = methodBit m := by cases m <;> rfl
  refine ⟨h, by rw [h]; rfl, by rw [h]; rfl, ?_⟩
  rw [h]
  unfold VFS_JS
  by_cases hb : key.asyncMask.testBit (methodBit m) = true
  · simp [hb, HostCall.isAsyncForm]
  · simp [hb, HostCall.isAsyncForm]

/-- C2: every registration call captures the process default current at that
moment (`sqlite3_vfs_find`) as the Fallback, and fills each of the nine
instance-level slots with the relay adapter when its bit is set in
methodsImplemented, and with the Fallback's own entry for that slot otherwise;
moreover a makeDefault registration installs the new instance as the process
default, so a later non-default registration falls through to it rather than
to a built-in. -/
theorem register_slots_use_current_default_as_fallback :
    ∀ (st : ProcState) (zName : String) (mxPathName : Int) (mm am : Nat) (md : Bool),
      ((libvfs_vfs_register st zName mxPathName mm am md true).2.1).map
          (fun v => instanceMethods.map v.base.slot)
        = some (instanceMethods.map (fun m =>
            if mm.testBit (methodBit m) then some (.adapter m)
            else (sqlite3_vfs_find st).slot m))
      ∧ (libvfs_vfs_register st zName mxPathName mm am true true).2.2
        = { defaultVfs :=
              (((libvfs_vfs_register st zName mxPathName mm am true true).2.1).map
                VFS.base).getD st.defaultVfs } := by
  intro st zName mxPathName mm am md
  exact ⟨rfl, rfl⟩

/-- C3: every open call builds a fresh per-handle method table whose entry for
each of the sixteen per-handle slots is the relay adapter when the slot's bit
is set in the owning instance's methodsImplemented and NULL otherwise (never a
fallback), and sets the handle's back-reference to the owning instance. -/
theorem xOpen_handle_table_and_backref :
    ∀ (host : HostCall → Int) (openArgs : List Arg) (s : OpenState),
      (libvfs_xOpen host openArgs s true).map (fun p =>
          (p.2.file.pMethods.map (fun t => fileMethods.map t.slot), p.2.file.pVfs))
        = some (some (fileMethods.map (fun m =>
              if s.vfs.methodMask.testBit (methodBit m) then some (.adapter m) else none)),
            some s.vfs) := by
  intro host openArgs s
  rfl

/-- C4: every relayed virtual-method call returns the integer result code the
host boundary produced, verbatim — and in particular libvfs_xOpen returns its
relay call's result unchanged, independent of the method-table construction
that follows. -/
theorem relay_result_returned_verbatim :
    ∀ (host : HostCall → Int) (pVfs : VFS) (m : VfsMethod) (args : List Arg)
      (openArgs : List Arg) (s : OpenState),
      relayFileMethod host pVfs m args = host (VFS_JS pVfs m args)
      ∧ (libvfs_xOpen host openArgs s true).map Prod.fst
          = some (host (VFS_JS s.vfs .xOpen openArgs)) := by
  intro host pVfs m args openArgs s
  exact ⟨rfl, rfl⟩

/-- C5: registration returns the engine's out-of-memory code exactly when the
descriptor allocation fails, with no argument validation — but the per-handle
table construction in libvfs_xOpen does NOT signal out-of-memory when its own
allocation fails: the C code never checks the malloc result and dereferences
the NULL pointer (modelled as `none` — the call crashes instead of returning
SQLITE_NOMEM), while the registration path in the very same file does check
(libvfs.c 195). -/
theorem register_nomem_iff_alloc_fails_but_xOpen_crashes :
    ∀ (st : ProcState) (zName : String) (mxPathName : Int) (mm am : Nat)
      (md allocOk : Bool) (host : HostCall → Int) (openArgs : List Arg) (s : OpenState),
      ((libvfs_vfs_register st zName mxPathName mm am md allocOk).1 = SQLITE_NOMEM
          ↔ allocOk = false)
      ∧ libvfs_xOpen host openArgs s false = none := by
  intro st zName mxPathName mm am md allocOk host openArgs s
  refine ⟨?_, rfl⟩
  cases allocOk <;> simp [libvfs_vfs_register, sqlite3_vfs_register, SQLITE_OK, SQLITE_NOMEM]

/-- C6: the dispatcher selects the asynchronous call form exactly when the
method's bit is set in the owning instance's methodsAsynchronous mask, and
either form receives the same arguments: the owning instance as key, the
method's stable symbolic name token (a string), and the method's natural
arguments. -/
theorem dispatcher_form_selection_and_args :
    ∀ (key : VFS) (m : VfsMethod) (args : List Arg),
      (VFS_JS key m args).isAsyncForm = key.asyncMask.testBit (methodBit m)
      ∧ (VFS_JS key m args).key = key
      ∧ (VFS_JS key m args).nameToken = methodNameToken m
      ∧ (VFS_JS key m args).args = args := by
  intro key m args
  unfold VFS_JS
  by_cases hb : key.asyncMask.testBit (methodBit m) = true
  · simp [hb, HostCall.isAsyncForm, HostCall.key, HostCall.nameToken, HostCall.args]
  · simp at hb
    simp [hb, HostCall.isAsyncForm, HostCall.key, HostCall.nameToken, HostCall.args]

/-- C7 (counterexample): registering with methodsImplemented = 0 and
methodsAsynchronous = 1 succeeds and yields an instance whose asynchronous bit
for the open method is set although its implemented bit is unset —
construction neither fails nor clamps. -/
theorem register_async_not_subset_counterexample :
    ((libvfs_vfs_register sampleProcState "vfsA" 1024 0 1 false true).2.1.map
        (fun v => (v.asyncMask.testBit (methodBit .xOpen),
                   v.methodMask.testBit (methodBit .xOpen))))
      = some (true, false) := by
  decide

/-- C7 (amended): registration performs no subset validation and no clamping:
both masks are stored on the constructed instance verbatim, so the invariant
methods-asynchronous ⊆ methods-implemented is NOT enforced and a constructed
instance can carry an asynchronous bit for an unimplemented method. -/
theorem register_masks_stored_verbatim :
    ∀ (st : ProcState) (zName : String) (mxPathName : Int) (mm am : Nat) (md : Bool),
      ((libvfs_vfs_register st zName mxPathName mm am md true).2.1.map
          (fun v => (v.methodMask, v.asyncMask))) = some (mm, am) := by
  intro st zName mxPathName mm am md
  rfl

/-- C8: splitting a signed 64-bit value into the (high, low) 32-bit halves the
update-hook relays compute and recomposing them on the receiving side yields
the original value, for every value in the signed 64-bit range (the
recomposition is modelled from the spec, that side living outside src/). -/
theorem updatehook_rowid_split_roundtrip :
    ∀ rowid : Int, -(2 ^ 63) ≤ rowid → rowid < 2 ^ 63 →
      hostRecompose64 (splitHi32 rowid) (splitLo32 rowid) = rowid := by
  intro rowid h1 h2
  unfold hostRecompose64 splitHi32 splitLo32 wrap32 wrap64
  rw [Int.fdiv_eq_ediv _ (by norm_num)]
  omega

/-- C8 (witness): the round-trip at the boundary values 0, -1, 2^31-1,
2^63-1 and a representative negative value. -/
theorem updatehook_rowid_split_roundtrip_witness :
    hostRecompose64 (splitHi32 0) (splitLo32 0) = 0
    ∧ hostRecompose64 (splitHi32 (-1)) (splitLo32 (-1)) = -1
    ∧ hostRecompose64 (splitHi32 (2 ^ 31 - 1)) (splitLo32 (2 ^ 31 - 1)) = 2 ^ 31 - 1
    ∧ hostRecompose64 (splitHi32 (2 ^ 63 - 1)) (splitLo32 (2 ^ 63 - 1)) = 2 ^ 63 - 1
    ∧ hostRecompose64 (splitHi32 (-123456789)) (splitLo32 (-123456789)) = -123456789 :=
  ⟨updatehook_rowid_split_roundtrip 0 (by decide) (by decide),
   updatehook_rowid_split_roundtrip (-1) (by decide) (by decide),
   updatehook_rowid_split_roundtrip (2 ^ 31 - 1) (by decide) (by decide),
   updatehook_rowid_split_roundtrip (2 ^ 63 - 1) (by decide) (by decide),
   updatehook_rowid_split_roundtrip (-123456789) (by decide) (by decide)⟩

/-- C9: the instance's two masks are read-only after registration: the open
virtual method (the only adapter in libvfs.c that stores anything — every
other relay adapter is a single return of the relay result with no store)
leaves the owning instance, and in particular both masks, unchanged. -/
theorem masks_readonly_after_registration :
    ∀ (host : HostCall → Int) (openArgs : List Arg) (s : OpenState) (allocOk : Bool),
      (libvfs_xOpen host openArgs s allocOk).map
          (fun p => (p.2.vfs.methodMask, p.2.vfs.asyncMask))
        = (libvfs_xOpen host openArgs s allocOk).map
            (fun _ => (s.vfs.methodMask, s.vfs.asyncMask)) := by
  intro host openArgs s allocOk
  cases allocOk <;> rfl

/-- C10: libvfs_xOpen installs the freshly built version-2 method table and
the back-reference on the handle unconditionally — even when the relayed open
call's result code is non-zero, the handle receives the populated table before
that error code is returned. -/
theorem xOpen_installs_table_even_on_error :
    ∀ (host : HostCall → Int) (openArgs : List Arg) (s : OpenState),
      host (VFS_JS s.vfs .xOpen openArgs) ≠ 0 →
      libvfs_xOpen host openArgs s true
        = some (host (VFS_JS s.vfs .xOpen openArgs),
            { s with file := { pMethods := some (buildIoMethods s.vfs.methodMask)
                               pVfs := some s.vfs } })
      ∧ (buildIoMethods s.vfs.methodMask).iVersion = 2 := by
  intro host openArgs s h
  exact ⟨rfl, rfl⟩

/-- C10 (witness): a host whose open call fails with code 10 still leaves the
sample handle with the populated version-2 table and the back-reference. -/
theorem xOpen_installs_table_even_on_error_witness :
    libvfs_xOpen sampleHostErr [] sampleOpenState true
      = some (sampleHostErr (VFS_JS sampleOpenState.vfs .xOpen []),
          { sampleOpenState with
            file := { pMethods := some (buildIoMethods sampleOpenState.vfs.methodMask)
                      pVfs := some sampleOpenState.vfs } })
    ∧ (buildIoMethods sampleOpenState.vfs.methodMask).iVersion = 2 :=
  xOpen_installs_table_even_on_error sampleHostErr [] sampleOpenState (by decide)
